import Mathlib

/-!
Shallow embedding of `src/logger_utils.py` (class `TerminalLogger` and its
inner stream wrapper `LoggedStream`).

Modelling conventions:
* Wall-clock time (`datetime.now()`) is passed in explicitly as the string
  `asctime` / `timestamp` wherever the source calls it.
* Streams are identified by a reference type `StreamRef`; a `LoggedStream`
  wrapper object is the constructor `StreamRef.loggedStream underlying ty`.
* The observable world is a `State`: the logger object's mutable field
  `log_file`, the process-wide `sys.stdout` / `sys.stderr`, the content of
  the file at the logger's resolved path, and a trace of I/O events.
* Python exceptions (KeyError from `%`-formatting, ValueError from writing
  to a closed file) are modelled by `Option`: `none` means the call raised.
* `print(x, file=f)` is modelled as one write of `x ++ "\n"` to `f`
  (Python's print does not flush by default).
* `os.path.abspath` / `os.makedirs` depend on the ambient filesystem; the
  model takes `log_dir` as the already-resolved directory path, and
  directory creation has no further observable effect in the model.
-/

set_option maxRecDepth 8192

namespace LoggerUtils

/-- `TerminalLogger.LOG_LEVELS`: the level table from the source. -/
def LOG_LEVELS : List (String × Nat) :=
  [("DEBUG", 10), ("INFO", 20), ("WARNING", 30), ("ERROR", 40), ("CRITICAL", 50)]

/-- Python `str.upper()` (ASCII letters, which is all the source uses). -/
def pyUpper (s : String) : String := String.mk (s.data.map Char.toUpper)

/-- `self.LOG_LEVELS.get(level.upper(), 0)` — the lookup in `_write_log`. -/
def levelValue (level : String) : Nat :=
  (LOG_LEVELS.lookup (pyUpper level)).getD 0

/-- `self.LOG_LEVELS.get(log_level.upper(), self.LOG_LEVELS["INFO"])` —
the lookup in `__init__`, with fallback INFO = 20. -/
def levelFromName (name : String) : Nat :=
  (LOG_LEVELS.lookup (pyUpper name)).getD 20

/-- Python `str.ljust(w)`: pad on the right with spaces to width `w`. -/
def ljust (s : String) (w : Nat) : String :=
  s ++ String.mk (List.replicate (w - s.length) ' ')

/-- Python `str.strip()`: drop leading and trailing whitespace. -/
def pyStrip (s : String) : String :=
  String.mk (((s.data.dropWhile Char.isWhitespace).reverse.dropWhile Char.isWhitespace).reverse)

/-- Python `str.endswith(suffix)`. -/
def pyEndsWith (s suffix : String) : Bool :=
  suffix.data.isSuffixOf s.data

/-- Helper for `str.replace`: replace every non-overlapping occurrence of
`pat` (non-empty in all the source's uses) by `repl`, left to right.  The
fuel is the remaining input length, so it never runs out. -/
def pyReplaceAux (pat repl : List Char) : Nat → List Char → List Char
  | _, [] => []
  | 0, l => l
  | fuel + 1, c :: cs =>
    if pat.isPrefixOf (c :: cs) then
      repl ++ pyReplaceAux pat repl fuel ((c :: cs).drop pat.length)
    else
      c :: pyReplaceAux pat repl fuel cs

/-- Python `str.replace(pat, repl)`. -/
def pyReplace (s pat repl : String) : String :=
  String.mk (pyReplaceAux pat.data repl.data (s.data.length + 1) s.data)

/-- Python `os.path.basename`: the part after the last `/`. -/
def basename (p : String) : String :=
  String.mk ((p.data.reverse.takeWhile (fun c => c ≠ '/')).reverse)

/-- Helper for `%`-formatting: read the key of a `%(key)s` slot, consuming
up to and including the `)s`. Any conversion other than `s` raises. -/
def readKey : List Char → Option (String × List Char)
  | [] => none
  | ')' :: 's' :: rest => some ("", rest)
  | ')' :: _ => none
  | c :: rest =>
    match readKey rest with
    | none => none
    | some (k, r) => some (String.mk (c :: k.data), r)

/-- Python `%`-formatting of a template against a mapping, restricted to the
`%(key)s` slots (and `%%`) that the source's templates can contain.  A key
absent from the mapping raises (KeyError), modelled as `none`.  The fuel is
the remaining template length, so it never runs out. -/
def substAux (vals : List (String × String)) : Nat → List Char → Option (List Char)
  | _, [] => some []
  | 0, _ :: _ => none
  | fuel + 1, '%' :: rest =>
    match rest with
    | '(' :: rest2 =>
      match readKey rest2 with
      | none => none
      | some (k, rest3) =>
        match vals.lookup k with
        | none => none
        | some v =>
          match substAux vals fuel rest3 with
          | none => none
          | some out => some (v.data ++ out)
    | '%' :: rest2 =>
      match substAux vals fuel rest2 with
      | none => none
      | some out => some ('%' :: out)
    | _ => none
  | fuel + 1, c :: rest =>
    match substAux vals fuel rest with
    | none => none
    | some out => some (c :: out)

/-- `TerminalLogger._format_log`: substitute `asctime`, `level.ljust(8)` and
`message.strip()` into the stored template. -/
def format_log (fmt : String) (asctime level message : String) : Option String :=
  (substAux [("asctime", asctime), ("level", ljust level 8), ("message", pyStrip message)]
      (fmt.data.length + 1) fmt.data).map String.mk

/-- The default template `"[%(asctime)s] [%(level)s] %(message)s"`. -/
def defaultFormat : String := "[%(asctime)s] [%(level)s] %(message)s"

/-- The line the default template renders (for stating theorems). -/
def defaultLine (asctime level message : String) : String :=
  "[" ++ (asctime ++ ("] [" ++ (ljust level 8 ++ ("] " ++ pyStrip message))))

/-- A reference to an output channel: either an underlying base stream
(identified by a name) or a `LoggedStream` wrapper around a stream, with its
`stream_type` tag. -/
inductive StreamRef where
  | base : String → StreamRef
  | loggedStream : StreamRef → String → StreamRef
deriving DecidableEq, Repr

/-- The state of a Python file object owned by the logger: open or closed.
(A closed file object is still truthy, and writing to it raises.) -/
inductive FileHandle where
  | fhOpen : FileHandle
  | fhClosed : FileHandle
deriving DecidableEq, Repr

/-- Observable I/O actions: writes/flushes on streams, and writes/flushes on
the logger's file. -/
inductive IOEvent where
  | writeS : StreamRef → String → IOEvent
  | flushS : StreamRef → IOEvent
  | writeF : String → IOEvent
  | flushF : IOEvent
deriving DecidableEq, Repr

/-- The fields of a `TerminalLogger` that `__init__` sets and no method ever
reassigns (everything except `log_file`). -/
structure TerminalLogger where
  log_dir : String
  log_level : Nat
  overwrite : Bool
  log_filename : String
  log_filepath : String
  log_format : String
  original_stdout : StreamRef
  original_stderr : StreamRef
deriving DecidableEq, Repr

/-- `TerminalLogger.__init__`, with the environment-dependent inputs made
explicit: `argv0` is `sys.argv[0]`, `timestamp` is
`datetime.now().strftime("%Y%m%d_%H%M%S")`, and `sysOut`/`sysErr` are the
current `sys.stdout`/`sys.stderr` that get saved as the originals.
`log_filename = ""` and `log_format = ""` play the role of Python `None`
(the source tests them with falsiness, so `""` behaves identically). -/
def TerminalLogger.init (log_dir log_filename log_level log_format : String)
    (overwrite : Bool) (argv0 timestamp : String)
    (sysOut sysErr : StreamRef) : TerminalLogger :=
  let fname :=
    if log_filename = "" then
      let task_name := if argv0 = "" then "task" else pyReplace (basename argv0) ".py" ""
      task_name ++ "_" ++ timestamp ++ ".log"
    else
      if pyEndsWith log_filename ".log" then log_filename else log_filename ++ ".log"
  { log_dir := log_dir
    log_level := levelFromName log_level
    overwrite := overwrite
    log_filename := fname
    log_filepath := log_dir ++ "/" ++ fname
    log_format := if log_format = "" then defaultFormat else log_format
    original_stdout := sysOut
    original_stderr := sysErr }

/-- The mutable world: the logger, its `log_file` field (`none` = Python
`None`), the process streams, the content of the file at the logger's
resolved path, and the trace of I/O events performed so far. -/
structure State where
  logger : TerminalLogger
  log_file : Option FileHandle
  sysStdout : StreamRef
  sysStderr : StreamRef
  fileContent : String
  events : List IOEvent
deriving DecidableEq, Repr

/-- The state right after `TerminalLogger(...)` is constructed: `log_file`
is `None`, the process streams are untouched, no I/O has happened.
`existing` is whatever content the file at the resolved path already has. -/
def construct (log_dir log_filename log_level log_format : String)
    (overwrite : Bool) (argv0 timestamp : String)
    (sysOut sysErr : StreamRef) (existing : String) : State :=
  { logger := TerminalLogger.init log_dir log_filename log_level log_format
      overwrite argv0 timestamp sysOut sysErr
    log_file := none
    sysStdout := sysOut
    sysStderr := sysErr
    fileContent := existing
    events := [] }

/-- `TerminalLogger._write_log(level, message)` at wall-clock `asctime`:
filter by threshold; format; `print` to `self.original_stdout`; if
`self.log_file` is truthy, write the line plus newline and flush.  Writing
to a closed file raises ValueError (`none`). -/
def write_log (st : State) (asctime level message : String) : Option State :=
  if levelValue level < st.logger.log_level then
    some st
  else
    match format_log st.logger.log_format asctime level message with
    | none => none
    | some line =>
      let st1 : State :=
        { st with events := st.events ++ [IOEvent.writeS st.logger.original_stdout (line ++ "\n")] }
      match st1.log_file with
      | none => some st1
      | some FileHandle.fhOpen =>
        some { st1 with
                fileContent := st1.fileContent ++ line ++ "\n"
                events := st1.events ++ [IOEvent.writeF (line ++ "\n"), IOEvent.flushF] }
      | some FileHandle.fhClosed => none

/-- `TerminalLogger.debug`. -/
def State.logDebug (st : State) (asctime message : String) : Option State :=
  write_log st asctime "DEBUG" message

/-- `TerminalLogger.info`. -/
def State.logInfo (st : State) (asctime message : String) : Option State :=
  write_log st asctime "INFO" message

/-- `TerminalLogger.warning`. -/
def State.logWarning (st : State) (asctime message : String) : Option State :=
  write_log st asctime "WARNING" message

/-- `TerminalLogger.error`. -/
def State.logError (st : State) (asctime message : String) : Option State :=
  write_log st asctime "ERROR" message

/-- `TerminalLogger.critical`. -/
def State.logCritical (st : State) (asctime message : String) : Option State :=
  write_log st asctime "CRITICAL" message

/-- `TerminalLogger.capture_terminal_output`: install `LoggedStream`
wrappers over `sys.stdout`/`sys.stderr`; each wrapper wraps the
construction-time original, not the currently installed stream. -/
def capture_terminal_output (st : State) : State :=
  { st with
      sysStdout := StreamRef.loggedStream st.logger.original_stdout "stdout"
      sysStderr := StreamRef.loggedStream st.logger.original_stderr "stderr" }

/-- `TerminalLogger.restore_terminal`: put the construction-time originals
back into `sys.stdout`/`sys.stderr`. -/
def restore_terminal (st : State) : State :=
  { st with
      sysStdout := st.logger.original_stdout
      sysStderr := st.logger.original_stderr }

/-- `LoggedStream.write(message)`: if `message.strip()` is non-empty, route
through the logger (`error` for the stderr wrapper, `info` otherwise); then
always forward the raw message to the underlying stream and flush it. -/
def LoggedStream.write (st : State) (original_stream : StreamRef)
    (stream_type : String) (asctime message : String) : Option State :=
  let routed :=
    if pyStrip message = "" then some st
    else if stream_type = "stderr" then State.logError st asctime message
    else State.logInfo st asctime message
  match routed with
  | none => none
  | some st1 =>
    some { st1 with
            events := st1.events ++
              [IOEvent.writeS original_stream message, IOEvent.flushS original_stream] }

/-- `LoggedStream.flush()`: flush the underlying stream, nothing else. -/
def LoggedStream.flush (st : State) (original_stream : StreamRef) : State :=
  { st with events := st.events ++ [IOEvent.flushS original_stream] }

/-- `TerminalLogger.__enter__` at wall-clock `asctime`: open the file in
`"w"` (truncate) mode if `overwrite` else `"a"` (append) mode, start
capture, then emit the two informational lines. -/
def enter (st : State) (asctime : String) : Option State :=
  match State.logInfo
      (capture_terminal_output
        { st with
            log_file := some FileHandle.fhOpen
            fileContent := if st.logger.overwrite then "" else st.fileContent })
      asctime "===== Logging started =====" with
  | none => none
  | some st3 => State.logInfo st3 asctime ("Log file path: " ++ st3.logger.log_filepath)

/-- `TerminalLogger.__exit__` at wall-clock `asctime`.  `exc = some (ty, v)`
models an in-flight exception of type-name `ty` rendering `v`.  Restore the
terminal streams; log the exception if any; log the end marker; close the
file if the reference is truthy (it is never set back to `None`); return
`false` so the exception propagates. -/
def exitCtx (st : State) (asctime : String) (exc : Option (String × String)) :
    Option (State × Bool) :=
  match
    (match exc with
     | some (ty, v) =>
       State.logError (restore_terminal st) asctime
         ("Task exception: " ++ ty ++ " - " ++ v)
     | none => some (restore_terminal st)) with
  | none => none
  | some st2 =>
    match State.logInfo st2 asctime "===== Logging finished =====" with
    | none => none
    | some st3 =>
      match st3.log_file with
      | some _ => some ({ st3 with log_file := some FileHandle.fhClosed }, false)
      | none => some (st3, false)

/-- Run a list of `(level, message)` log calls in order. -/
def runLogs (st : State) (asctime : String) : List (String × String) → Option State
  | [] => some st
  | (l, m) :: rest =>
    match write_log st asctime l m with
    | none => none
    | some st1 => runLogs st1 asctime rest

/-- One full `with` session: enter, run the body's log calls, exit (with
`exc` the exception the body raised, if any). -/
def session (st : State) (asctime : String) (calls : List (String × String))
    (exc : Option (String × String)) : Option (State × Bool) :=
  match enter st asctime with
  | none => none
  | some st1 =>
    match runLogs st1 asctime calls with
    | none => none
    | some st2 => exitCtx st2 asctime exc

/-- Apply a sequence of `capture_terminal_output` (`true`) and
`restore_terminal` (`false`) calls, in order. -/
def applyCaptureRestore (st : State) : List Bool → State
  | [] => st
  | b :: rest =>
    applyCaptureRestore (if b then capture_terminal_output st else restore_terminal st) rest

/-- The bytes one `_write_log` call appends to the file when the file is
open: nothing below threshold, else the formatted line plus a newline. -/
def logFileDelta (lg : TerminalLogger) (asctime level message : String) : Option String :=
  if levelValue level < lg.log_level then some ""
  else (format_log lg.log_format asctime level message).map (fun line => line ++ "\n")

/-- File bytes appended by a list of log calls. -/
def runDelta (lg : TerminalLogger) (asctime : String) :
    List (String × String) → Option String
  | [] => some ""
  | (l, m) :: rest =>
    match logFileDelta lg asctime l m with
    | none => none
    | some d =>
      match runDelta lg asctime rest with
      | none => none
      | some ds => some (d ++ ds)

/-- File bytes appended by `__enter__`'s two informational lines. -/
def enterDelta (lg : TerminalLogger) (asctime : String) : Option String :=
  match logFileDelta lg asctime "INFO" "===== Logging started =====" with
  | none => none
  | some d1 =>
    match logFileDelta lg asctime "INFO" ("Log file path: " ++ lg.log_filepath) with
    | none => none
    | some d2 => some (d1 ++ d2)

/-- File bytes appended by `__exit__`'s error line (if any) and end marker. -/
def exitDelta (lg : TerminalLogger) (asctime : String)
    (exc : Option (String × String)) : Option String :=
  match
    (match exc with
     | some (ty, v) =>
       logFileDelta lg asctime "ERROR" ("Task exception: " ++ ty ++ " - " ++ v)
     | none => some "") with
  | none => none
  | some de =>
    match logFileDelta lg asctime "INFO" "===== Logging finished =====" with
    | none => none
    | some dend => some (de ++ dend)

/-- All file bytes one session appends (after a possible truncation). -/
def sessionFileOutput (lg : TerminalLogger) (asctime : String)
    (calls : List (String × String)) (exc : Option (String × String)) : Option String :=
  match enterDelta lg asctime with
  | none => none
  | some de =>
    match runDelta lg asctime calls with
    | none => none
    | some dr =>
      match exitDelta lg asctime exc with
      | none => none
      | some dx => some (de ++ (dr ++ dx))

/-! ### Basic string lemmas used throughout -/

lemma data_append (s t : String) : (s ++ t).data = s.data ++ t.data := rfl

lemma string_ext : ∀ (s t : String), s.data = t.data → s = t
  | ⟨_⟩, ⟨_⟩, h => congrArg String.mk h

lemma string_append_assoc (s t u : String) : s ++ t ++ u = s ++ (t ++ u) := by
  apply string_ext
  simp [data_append]

lemma string_append_empty (s : String) : s ++ "" = s := by
  apply string_ext
  simp [data_append]

lemma string_empty_append (s : String) : "" ++ s = s := rfl

/-- Substituting into the default template always succeeds and yields the
expected line. -/
lemma format_log_default (a l m : String) :
    format_log defaultFormat a l m = some (defaultLine a l m) := by
  have h : format_log defaultFormat a l m =
      some (String.mk ('[' :: (a.data ++ (']' :: ' ' :: '[' ::
        ((ljust l 8).data ++ (']' :: ' ' :: ((pyStrip m).data ++ []))))))) := rfl
  rw [h]
  congr 1
  apply string_ext
  simp [defaultLine, data_append]

/-! ### Frame lemmas: which fields each operation can change -/

lemma write_log_logger {st st' : State} {a l m : String}
    (h : write_log st a l m = some st') :
    st'.logger = st.logger ∧ st'.log_file = st.log_file ∧
      st'.sysStdout = st.sysStdout ∧ st'.sysStderr = st.sysStderr := by
  unfold write_log at h
  split at h
  · cases h; exact ⟨rfl, rfl, rfl, rfl⟩
  · cases hf : format_log st.logger.log_format a l m with
    | none => rw [hf] at h; cases h
    | some line =>
      rw [hf] at h
      simp only at h
      cases hlf : st.log_file with
      | none => rw [hlf] at h; cases h; exact ⟨rfl, rfl, rfl, rfl⟩
      | some fh =>
        cases fh with
        | fhOpen => rw [hlf] at h; cases h; exact ⟨rfl, rfl, rfl, rfl⟩
        | fhClosed => rw [hlf] at h; cases h

lemma applyCaptureRestore_logger (ops : List Bool) :
    ∀ st : State, (applyCaptureRestore st ops).logger = st.logger := by
  induction ops with
  | nil => intro st; rfl
  | cons b rest ih =>
    intro st
    unfold applyCaptureRestore
    rw [ih]
    cases b <;> rfl

lemma levelFromName_pos (name : String) : 0 < levelFromName name := by
  unfold levelFromName LOG_LEVELS
  simp only [List.lookup]
  repeat' split
  all_goals decide

/-- A log call with the file open appends exactly `logFileDelta` bytes. -/
lemma write_log_open {st st' : State} {a l m : String}
    (hopen : st.log_file = some FileHandle.fhOpen)
    (h : write_log st a l m = some st') :
    ∃ d, logFileDelta st.logger a l m = some d ∧
      st'.fileContent = st.fileContent ++ d ∧
      st'.logger = st.logger ∧ st'.log_file = some FileHandle.fhOpen := by
  unfold write_log at h
  unfold logFileDelta
  split at h
  case isTrue hlt =>
    cases h
    rw [if_pos hlt]
    exact ⟨"", rfl, (string_append_empty _).symm, rfl, hopen⟩
  case isFalse hge =>
    rw [if_neg hge]
    cases hf : format_log st.logger.log_format a l m with
    | none => rw [hf] at h; cases h
    | some line =>
      rw [hf] at h
      simp only [hopen] at h
      cases h
      exact ⟨line ++ "\n", rfl, string_append_assoc _ _ _, rfl, rfl⟩

/-- A list of log calls with the file open appends exactly `runDelta`. -/
lemma runLogs_open {a : String} :
    ∀ (calls : List (String × String)) (st st' : State),
      st.log_file = some FileHandle.fhOpen →
      runLogs st a calls = some st' →
      ∃ d, runDelta st.logger a calls = some d ∧
        st'.fileContent = st.fileContent ++ d ∧
        st'.logger = st.logger ∧ st'.log_file = some FileHandle.fhOpen
  | [], st, st', hopen, h => by
    cases h
    exact ⟨"", rfl, (string_append_empty _).symm, rfl, hopen⟩
  | (l, m) :: rest, st, st', hopen, h => by
    unfold runLogs at h
    cases hw : write_log st a l m with
    | none => rw [hw] at h; cases h
    | some st1 =>
      rw [hw] at h
      obtain ⟨d1, hd1, hfc1, hlg1, hopen1⟩ := write_log_open hopen hw
      obtain ⟨d2, hd2, hfc2, hlg2, hopen2⟩ := runLogs_open rest st1 st' hopen1 h
      rw [hlg1] at hd2
      refine ⟨d1 ++ d2, ?_, ?_, ?_, hopen2⟩
      · unfold runDelta
        rw [hd1, hd2]
      · rw [hfc2, hfc1, string_append_assoc]
      · rw [hlg2, hlg1]

/-- `__enter__` truncates (iff `overwrite`) and appends `enterDelta`. -/
lemma enter_spec {st st' : State} {a : String} (h : enter st a = some st') :
    ∃ d, enterDelta st.logger a = some d ∧
      st'.fileContent = (if st.logger.overwrite then "" else st.fileContent) ++ d ∧
      st'.logger = st.logger ∧ st'.log_file = some FileHandle.fhOpen := by
  unfold enter State.logInfo at h
  cases hw1 : write_log
      (capture_terminal_output
        { st with
            log_file := some FileHandle.fhOpen
            fileContent := if st.logger.overwrite then "" else st.fileContent })
      a "INFO" "===== Logging started =====" with
  | none => rw [hw1] at h; cases h
  | some st3 =>
    rw [hw1] at h
    have h2 : write_log st3 a "INFO" ("Log file path: " ++ st3.logger.log_filepath) =
        some st' := h
    obtain ⟨d1, hd1, hfc1, hlg1, hopen1⟩ := write_log_open rfl hw1
    obtain ⟨d2, hd2, hfc2, hlg2, hopen2⟩ := write_log_open hopen1 h2
    have hd1' : logFileDelta st.logger a "INFO" "===== Logging started =====" =
        some d1 := hd1
    have hlg1' : st3.logger = st.logger := hlg1
    rw [hlg1'] at hd2 hlg2
    refine ⟨d1 ++ d2, ?_, ?_, ?_, hopen2⟩
    · unfold enterDelta
      rw [hd1', hd2]
    · rw [hfc2, hfc1]
      have : (capture_terminal_output
          { st with
              log_file := some FileHandle.fhOpen
              fileContent := if st.logger.overwrite then "" else st.fileContent }).fileContent =
          (if st.logger.overwrite then "" else st.fileContent) := rfl
      rw [this, string_append_assoc]
    · rw [hlg2]

/-- `__exit__` from an open file appends `exitDelta`, leaves the handle
closed (but present), and returns `false`. -/
lemma exitCtx_spec {st st' : State} {a : String} {exc : Option (String × String)}
    {b : Bool}
    (hopen : st.log_file = some FileHandle.fhOpen)
    (h : exitCtx st a exc = some (st', b)) :
    ∃ d, exitDelta st.logger a exc = some d ∧
      st'.fileContent = st.fileContent ++ d ∧
      st'.logger = st.logger ∧ st'.log_file = some FileHandle.fhClosed ∧
      b = false := by
  have hro : (restore_terminal st).log_file = some FileHandle.fhOpen := hopen
  cases exc with
  | none =>
    have h1 : (match State.logInfo (restore_terminal st) a "===== Logging finished =====" with
      | none => none
      | some st3 =>
        match st3.log_file with
        | some _ => some (({ st3 with log_file := some FileHandle.fhClosed } : State), false)
        | none => some (st3, false)) = some (st', b) := h
    simp only [State.logInfo] at h1
    cases hw : write_log (restore_terminal st) a "INFO" "===== Logging finished =====" with
    | none => rw [hw] at h1; cases h1
    | some st3 =>
      rw [hw] at h1
      obtain ⟨d, hd, hfc, hlg, hopen3⟩ := write_log_open hro hw
      have h2 : (match st3.log_file with
        | some _ => some (({ st3 with log_file := some FileHandle.fhClosed } : State), false)
        | none => some (st3, false)) = some (st', b) := h1
      rw [hopen3] at h2
      have h3 : some (({ st3 with log_file := some FileHandle.fhClosed } : State), false) =
          some (st', b) := h2
      cases h3
      have hd' : logFileDelta st.logger a "INFO" "===== Logging finished =====" =
          some d := hd
      refine ⟨"" ++ d, ?_, ?_, hlg, rfl, rfl⟩
      · show (match logFileDelta st.logger a "INFO" "===== Logging finished =====" with
          | none => none
          | some dend => some ("" ++ dend)) = some ("" ++ d)
        rw [hd']
      · rw [hfc]
        rfl
  | some excp =>
    obtain ⟨ty, v⟩ := excp
    have h1 : (match State.logError (restore_terminal st) a
        ("Task exception: " ++ ty ++ " - " ++ v) with
      | none => none
      | some st2 =>
        match State.logInfo st2 a "===== Logging finished =====" with
        | none => none
        | some st3 =>
          match st3.log_file with
          | some _ => some (({ st3 with log_file := some FileHandle.fhClosed } : State), false)
          | none => some (st3, false)) = some (st', b) := h
    simp only [State.logInfo, State.logError] at h1
    cases hw1 : write_log (restore_terminal st) a "ERROR"
        ("Task exception: " ++ ty ++ " - " ++ v) with
    | none => rw [hw1] at h1; cases h1
    | some st2 =>
      rw [hw1] at h1
      obtain ⟨d1, hd1, hfc1, hlg1, hopen2⟩ := write_log_open hro hw1
      have h2 : (match write_log st2 a "INFO" "===== Logging finished =====" with
        | none => none
        | some st3 =>
          match st3.log_file with
          | some _ => some (({ st3 with log_file := some FileHandle.fhClosed } : State), false)
          | none => some (st3, false)) = some (st', b) := h1
      cases hw2 : write_log st2 a "INFO" "===== Logging finished =====" with
      | none => rw [hw2] at h2; cases h2
      | some st3 =>
        rw [hw2] at h2
        obtain ⟨d2, hd2, hfc2, hlg2, hopen3⟩ := write_log_open hopen2 hw2
        have hlg1' : st2.logger = st.logger := hlg1
        rw [hlg1'] at hd2 hlg2
        have h3 : (match st3.log_file with
          | some _ => some (({ st3 with log_file := some FileHandle.fhClosed } : State), false)
          | none => some (st3, false)) = some (st', b) := h2
        rw [hopen3] at h3
        have h4 : some (({ st3 with log_file := some FileHandle.fhClosed } : State), false) =
            some (st', b) := h3
        cases h4
        have hd1' : logFileDelta st.logger a "ERROR"
            ("Task exception: " ++ ty ++ " - " ++ v) = some d1 := hd1
        refine ⟨d1 ++ d2, ?_, ?_, hlg2, rfl, rfl⟩
        · show (match logFileDelta st.logger a "ERROR"
              ("Task exception: " ++ ty ++ " - " ++ v) with
            | none => none
            | some de =>
              match logFileDelta st.logger a "INFO" "===== Logging finished =====" with
              | none => none
              | some dend => some (de ++ dend)) = some (d1 ++ d2)
          rw [hd1', hd2]
        · rw [hfc2, hfc1]
          exact string_append_assoc _ _ _

/-- A whole session appends `sessionFileOutput` after the open-mode
truncation, never suppresses the exception, and ends with the handle
closed. -/
lemma session_spec {st st' : State} {a : String} {calls : List (String × String)}
    {exc : Option (String × String)} {b : Bool}
    (h : session st a calls exc = some (st', b)) :
    ∃ out, sessionFileOutput st.logger a calls exc = some out ∧
      st'.fileContent = (if st.logger.overwrite then "" else st.fileContent) ++ out ∧
      st'.logger = st.logger ∧ st'.log_file = some FileHandle.fhClosed ∧
      b = false := by
  unfold session at h
  cases he : enter st a with
  | none => rw [he] at h; cases h
  | some st1 =>
    rw [he] at h
    have h1 : (match runLogs st1 a calls with
      | none => none
      | some st2 => exitCtx st2 a exc) = some (st', b) := h
    obtain ⟨de, hde, hfce, hlge, hopene⟩ := enter_spec he
    cases hr : runLogs st1 a calls with
    | none => rw [hr] at h1; cases h1
    | some st2 =>
      rw [hr] at h1
      obtain ⟨dr, hdr, hfcr, hlgr, hopenr⟩ := runLogs_open calls st1 st2 hopene hr
      rw [hlge] at hdr hlgr
      obtain ⟨dx, hdx, hfcx, hlgx, hclosed, hb⟩ := exitCtx_spec hopenr h1
      rw [hlgr] at hdx hlgx
      refine ⟨de ++ (dr ++ dx), ?_, ?_, hlgx, hclosed, hb⟩
      · unfold sessionFileOutput
        rw [hde, hdr, hdx]
      · rw [hfcx, hfcr, hfce, string_append_assoc, string_append_assoc]

/-- Frame facts about `__exit__` that hold for any handle state: the logger
is unchanged, the streams end restored to the originals, the return value is
`false`, and a present handle (open or closed) ends closed. -/
lemma exitCtx_frame {st st' : State} {a : String} {exc : Option (String × String)}
    {b : Bool} (h : exitCtx st a exc = some (st', b)) :
    st'.logger = st.logger ∧ b = false ∧
      st'.sysStdout = st.logger.original_stdout ∧
      st'.sysStderr = st.logger.original_stderr ∧
      (∀ fh : FileHandle, st.log_file = some fh →
        st'.log_file = some FileHandle.fhClosed) := by
  cases exc with
  | none =>
    have h1 : (match write_log (restore_terminal st) a "INFO"
        "===== Logging finished =====" with
      | none => none
      | some st3 =>
        match st3.log_file with
        | some _ => some (({ st3 with log_file := some FileHandle.fhClosed } : State), false)
        | none => some (st3, false)) = some (st', b) := h
    cases hw : write_log (restore_terminal st) a "INFO" "===== Logging finished =====" with
    | none => rw [hw] at h1; cases h1
    | some st3 =>
      rw [hw] at h1
      obtain ⟨hlg, hlf, hso, hse⟩ := write_log_logger hw
      have h2 : (match st3.log_file with
        | some _ => some (({ st3 with log_file := some FileHandle.fhClosed } : State), false)
        | none => some (st3, false)) = some (st', b) := h1
      cases hfh : st3.log_file with
      | some fh3 =>
        rw [hfh] at h2
        have h3 : some (({ st3 with log_file := some FileHandle.fhClosed } : State), false) =
            some (st', b) := h2
        cases h3
        exact ⟨hlg, rfl, hso, hse, fun _ _ => rfl⟩
      | none =>
        rw [hfh] at h2
        have h3 : some (st3, false) = some (st', b) := h2
        cases h3
        refine ⟨hlg, rfl, hso, hse, fun fh hsf => ?_⟩
        have hx : st.log_file = none := hlf.symm.trans hfh
        rw [hsf] at hx
        cases hx
  | some excp =>
    obtain ⟨ty, v⟩ := excp
    have h1 : (match write_log (restore_terminal st) a "ERROR"
        ("Task exception: " ++ ty ++ " - " ++ v) with
      | none => none
      | some st2 =>
        match write_log st2 a "INFO" "===== Logging finished =====" with
        | none => none
        | some st3 =>
          match st3.log_file with
          | some _ => some (({ st3 with log_file := some FileHandle.fhClosed } : State), false)
          | none => some (st3, false)) = some (st', b) := h
    cases hw1 : write_log (restore_terminal st) a "ERROR"
        ("Task exception: " ++ ty ++ " - " ++ v) with
    | none => rw [hw1] at h1; cases h1
    | some st2 =>
      rw [hw1] at h1
      obtain ⟨hlg1, hlf1, hso1, hse1⟩ := write_log_logger hw1
      have h2 : (match write_log st2 a "INFO" "===== Logging finished =====" with
        | none => none
        | some st3 =>
          match st3.log_file with
          | some _ => some (({ st3 with log_file := some FileHandle.fhClosed } : State), false)
          | none => some (st3, false)) = some (st', b) := h1
      cases hw2 : write_log st2 a "INFO" "===== Logging finished =====" with
      | none => rw [hw2] at h2; cases h2
      | some st3 =>
        rw [hw2] at h2
        obtain ⟨hlg2, hlf2, hso2, hse2⟩ := write_log_logger hw2
        have h3 : (match st3.log_file with
          | some _ => some (({ st3 with log_file := some FileHandle.fhClosed } : State), false)
          | none => some (st3, false)) = some (st', b) := h2
        cases hfh : st3.log_file with
        | some fh3 =>
          rw [hfh] at h3
          have h4 : some (({ st3 with log_file := some FileHandle.fhClosed } : State), false) =
              some (st', b) := h3
          cases h4
          refine ⟨hlg2.trans hlg1, rfl, ?_, ?_, fun _ _ => rfl⟩
          · exact hso2.trans (hso1.trans (rfl : (restore_terminal st).sysStdout =
              st.logger.original_stdout))
          · exact hse2.trans (hse1.trans (rfl : (restore_terminal st).sysStderr =
              st.logger.original_stderr))
        | none =>
          rw [hfh] at h3
          have h4 : some (st3, false) = some (st', b) := h3
          cases h4
          refine ⟨hlg2.trans hlg1, rfl, ?_, ?_, fun fh hsf => ?_⟩
          · exact hso2.trans (hso1.trans (rfl : (restore_terminal st).sysStdout =
              st.logger.original_stdout))
          · exact hse2.trans (hse1.trans (rfl : (restore_terminal st).sysStderr =
              st.logger.original_stderr))
          · have hx : st.log_file = none := (hlf2.trans hlf1).symm.trans hfh
            rw [hsf] at hx
            cases hx

/-! ### Claim theorems -/

/-- C3: a log call whose level value is strictly below `minLevel` has no
observable effect at all — the state (file content, terminal trace, streams,
handle) is returned unchanged and no error can arise, because the call
returns before the message is ever formatted; and the threshold comparison
is inclusive: a recognized level whose value equals `minLevel` passes and
produces the usual terminal and file writes. -/
theorem C3_threshold_filtering (st : State) (asctime level message : String) :
    (levelValue level < st.logger.log_level →
      write_log st asctime level message = some st) ∧
    (levelValue level = st.logger.log_level →
      st.logger.log_format = defaultFormat →
      st.log_file = some FileHandle.fhOpen →
      write_log st asctime level message =
        some { st with
          fileContent := st.fileContent ++ defaultLine asctime level message ++ "\n"
          events := st.events ++
            [IOEvent.writeS st.logger.original_stdout (defaultLine asctime level message ++ "\n")] ++
            [IOEvent.writeF (defaultLine asctime level message ++ "\n"), IOEvent.flushF] }) := by
  constructor
  · intro hlt
    unfold write_log
    rw [if_pos hlt]
  · intro heq hfmt hopen
    unfold write_log
    rw [if_neg (by omega), hfmt, format_log_default]
    simp only [hopen]

/-- C3 witness: at threshold `WARNING` (30), a `DEBUG` (10) call returns the
state unchanged; and an exactly-at-threshold `WARNING` call writes. -/
theorem C3_threshold_filtering_witness :
    (write_log
        (construct "logs" "t" "WARNING" "" false "p.py" "20240101_000000"
          (StreamRef.base "out") (StreamRef.base "err") "")
        "T" "DEBUG" "m" =
      some (construct "logs" "t" "WARNING" "" false "p.py" "20240101_000000"
          (StreamRef.base "out") (StreamRef.base "err") "")) ∧
    (write_log
        { construct "logs" "t" "WARNING" "" false "p.py" "20240101_000000"
            (StreamRef.base "out") (StreamRef.base "err") "" with
          log_file := some FileHandle.fhOpen }
        "T" "WARNING" "m" =
      some { construct "logs" "t" "WARNING" "" false "p.py" "20240101_000000"
              (StreamRef.base "out") (StreamRef.base "err") "" with
            log_file := some FileHandle.fhOpen
            fileContent := "" ++ defaultLine "T" "WARNING" "m" ++ "\n"
            events := ([] : List IOEvent) ++
              [IOEvent.writeS (StreamRef.base "out") (defaultLine "T" "WARNING" "m" ++ "\n")] ++
              [IOEvent.writeF (defaultLine "T" "WARNING" "m" ++ "\n"), IOEvent.flushF] }) :=
  ⟨(C3_threshold_filtering _ "T" "DEBUG" "m").1 (by decide),
   (C3_threshold_filtering _ "T" "WARNING" "m").2 (by decide) (by decide) rfl⟩

/-- C4: at or above the threshold, with a session active (file open), one
log call appends exactly one newline-terminated line to the file,
immediately followed by a flush, and performs exactly one terminal write —
to the construction-time `original_stdout`, regardless of what
`sys.stdout`/`sys.stderr` currently hold — and the file bytes and the
terminal bytes are identical (`line ++ "\n"` both). -/
theorem C4_emit_writes_once (st : State) (asctime level message line : String)
    (hlev : st.logger.log_level ≤ levelValue level)
    (hfmt : format_log st.logger.log_format asctime level message = some line)
    (hopen : st.log_file = some FileHandle.fhOpen) :
    write_log st asctime level message =
      some { st with
        fileContent := st.fileContent ++ line ++ "\n"
        events := st.events ++
          [IOEvent.writeS st.logger.original_stdout (line ++ "\n")] ++
          [IOEvent.writeF (line ++ "\n"), IOEvent.flushF] } := by
  unfold write_log
  rw [if_neg (by omega), hfmt]
  simp only [hopen]

/-- C4 witness: an `ERROR` call on a default-format logger at threshold
`INFO`, with wrappers currently installed, writes to the original handle. -/
theorem C4_emit_writes_once_witness :
    write_log
        { construct "logs" "t" "INFO" "" false "p.py" "20240101_000000"
            (StreamRef.base "out") (StreamRef.base "err") "old" with
          log_file := some FileHandle.fhOpen
          sysStdout := StreamRef.loggedStream (StreamRef.base "out") "stdout" }
        "T" "ERROR" "boom" =
      some { construct "logs" "t" "INFO" "" false "p.py" "20240101_000000"
              (StreamRef.base "out") (StreamRef.base "err") "old" with
            log_file := some FileHandle.fhOpen
            sysStdout := StreamRef.loggedStream (StreamRef.base "out") "stdout"
            fileContent := "old" ++ "[T] [ERROR   ] boom" ++ "\n"
            events := ([] : List IOEvent) ++
              [IOEvent.writeS (StreamRef.base "out") ("[T] [ERROR   ] boom" ++ "\n")] ++
              [IOEvent.writeF ("[T] [ERROR   ] boom" ++ "\n"), IOEvent.flushF] } :=
  C4_emit_writes_once _ "T" "ERROR" "boom" "[T] [ERROR   ] boom"
    (by decide) (by decide) rfl

/-- C5: `restore_terminal` always reinstalls the exact stream references
saved at construction — after any sequence of capture/restore calls, one
more restore yields the construction-time originals in `sys.stdout` and
`sys.stderr`, so no intermediate wrapper can leak. -/
theorem C5_restore_yields_originals (st : State) (ops : List Bool) :
    (restore_terminal (applyCaptureRestore st ops)).sysStdout =
        st.logger.original_stdout ∧
      (restore_terminal (applyCaptureRestore st ops)).sysStderr =
        st.logger.original_stderr := by
  unfold restore_terminal
  rw [applyCaptureRestore_logger]
  exact ⟨rfl, rfl⟩

/-- C6: a `LoggedStream` wrapper's `write` routes non-whitespace content
through the logger — at `INFO` for the stdout wrapper, `ERROR` for the
stderr wrapper — and then always forwards the raw content to the underlying
stream followed by a flush of that stream; whitespace-only content is
forwarded (and flushed) without touching the logger; and the wrapper's
`flush` only flushes the underlying stream, never re-entering the logger. -/
theorem C6_wrapper_semantics (st : State) (u : StreamRef) (asctime message : String) :
    (pyStrip message ≠ "" →
      LoggedStream.write st u "stdout" asctime message =
          (write_log st asctime "INFO" message).map (fun s =>
            { s with events := s.events ++
                [IOEvent.writeS u message, IOEvent.flushS u] }) ∧
        LoggedStream.write st u "stderr" asctime message =
          (write_log st asctime "ERROR" message).map (fun s =>
            { s with events := s.events ++
                [IOEvent.writeS u message, IOEvent.flushS u] })) ∧
    (pyStrip message = "" →
      LoggedStream.write st u "stdout" asctime message =
          some { st with events := st.events ++
              [IOEvent.writeS u message, IOEvent.flushS u] } ∧
        LoggedStream.write st u "stderr" asctime message =
          some { st with events := st.events ++
              [IOEvent.writeS u message, IOEvent.flushS u] }) ∧
    LoggedStream.flush st u =
      { st with events := st.events ++ [IOEvent.flushS u] } := by
  refine ⟨fun hne => ⟨?_, ?_⟩, fun he => ⟨?_, ?_⟩, rfl⟩
  · unfold LoggedStream.write State.logInfo
    rw [if_neg hne, if_neg (by decide)]
    cases write_log st asctime "INFO" message <;> rfl
  · unfold LoggedStream.write State.logError
    rw [if_neg hne, if_pos rfl]
    cases write_log st asctime "ERROR" message <;> rfl
  · unfold LoggedStream.write
    rw [if_pos he]
  · unfold LoggedStream.write
    rw [if_pos he]

/-- C2: on session exit (with or without an in-flight fault), the streams
are restored to the construction-time originals; with a fault in flight
exactly one `ERROR` line naming the fault's kind and description is written
to terminal and file, before the informational end marker; then the file
handle is closed; and the returned `false` means the fault is never
suppressed — it propagates to the caller.  (Stated for a logger whose
threshold admits `INFO` and whose template is the default, so both exit
lines pass the filter and format successfully.) -/
theorem C2_exit_transition (st : State) (asctime : String)
    (exc : Option (String × String))
    (hfmt : st.logger.log_format = defaultFormat)
    (hlev : st.logger.log_level ≤ 20)
    (hopen : st.log_file = some FileHandle.fhOpen) :
    exitCtx st asctime exc =
      some ({ st with
        sysStdout := st.logger.original_stdout
        sysStderr := st.logger.original_stderr
        log_file := some FileHandle.fhClosed
        fileContent := st.fileContent ++
          ((match exc with
            | some (ty, v) =>
              defaultLine asctime "ERROR" ("Task exception: " ++ ty ++ " - " ++ v) ++ "\n"
            | none => "") ++
            (defaultLine asctime "INFO" "===== Logging finished =====" ++ "\n"))
        events := st.events ++
          ((match exc with
            | some (ty, v) =>
              [IOEvent.writeS st.logger.original_stdout
                  (defaultLine asctime "ERROR" ("Task exception: " ++ ty ++ " - " ++ v) ++ "\n"),
               IOEvent.writeF
                  (defaultLine asctime "ERROR" ("Task exception: " ++ ty ++ " - " ++ v) ++ "\n"),
               IOEvent.flushF]
            | none => []) ++
            [IOEvent.writeS st.logger.original_stdout
                (defaultLine asctime "INFO" "===== Logging finished =====" ++ "\n"),
             IOEvent.writeF
                (defaultLine asctime "INFO" "===== Logging finished =====" ++ "\n"),
             IOEvent.flushF]) }, false) := by
  have hERR : levelValue "ERROR" = 40 := rfl
  have hINF : levelValue "INFO" = 20 := rfl
  cases exc with
  | none =>
    simp only [exitCtx, State.logError, State.logInfo, write_log, restore_terminal,
      hfmt, format_log_default, hERR, hINF, hopen]
    rw [if_neg (by omega : ¬ (20 : Nat) < st.logger.log_level)]
    simp [string_append_assoc, List.append_assoc, string_empty_append]
  | some excp =>
    obtain ⟨ty, v⟩ := excp
    simp only [exitCtx, State.logError, State.logInfo, write_log, restore_terminal,
      hfmt, format_log_default, hERR, hINF, hopen]
    rw [if_neg (by omega : ¬ (40 : Nat) < st.logger.log_level)]
    simp only [hfmt, format_log_default]
    rw [if_neg (by omega : ¬ (20 : Nat) < st.logger.log_level)]
    simp [string_append_assoc, List.append_assoc]

/-- C2 witness: a concrete faulting exit on a default logger — the error
line precedes the end marker in the file and the exit reports `false`. -/
theorem C2_exit_transition_witness :
    exitCtx
        { construct "logs" "t" "INFO" "" false "p.py" "20240101_000000"
            (StreamRef.base "out") (StreamRef.base "err") "" with
          log_file := some FileHandle.fhOpen
          sysStdout := StreamRef.loggedStream (StreamRef.base "out") "stdout"
          sysStderr := StreamRef.loggedStream (StreamRef.base "err") "stderr" }
        "T" (some ("ZeroDivisionError", "division by zero")) =
      some ({ construct "logs" "t" "INFO" "" false "p.py" "20240101_000000"
              (StreamRef.base "out") (StreamRef.base "err") "" with
            log_file := some FileHandle.fhClosed
            sysStdout := StreamRef.base "out"
            sysStderr := StreamRef.base "err"
            fileContent := "" ++
              ((defaultLine "T" "ERROR"
                  ("Task exception: " ++ "ZeroDivisionError" ++ " - " ++ "division by zero") ++ "\n") ++
                (defaultLine "T" "INFO" "===== Logging finished =====" ++ "\n"))
            events := ([] : List IOEvent) ++
              ([IOEvent.writeS (StreamRef.base "out")
                  (defaultLine "T" "ERROR"
                    ("Task exception: " ++ "ZeroDivisionError" ++ " - " ++ "division by zero") ++ "\n"),
                IOEvent.writeF
                  (defaultLine "T" "ERROR"
                    ("Task exception: " ++ "ZeroDivisionError" ++ " - " ++ "division by zero") ++ "\n"),
                IOEvent.flushF] ++
               [IOEvent.writeS (StreamRef.base "out")
                  (defaultLine "T" "INFO" "===== Logging finished =====" ++ "\n"),
                IOEvent.writeF
                  (defaultLine "T" "INFO" "===== Logging finished =====" ++ "\n"),
                IOEvent.flushF]) }, false) :=
  C2_exit_transition _ "T" (some ("ZeroDivisionError", "division by zero"))
    rfl (by decide) rfl

/-- C6 witness: concrete routing of `"hi\n"` (non-whitespace) and `"\n"`
(whitespace-only) through a stdout wrapper over a default logger. -/
theorem C6_wrapper_semantics_witness :
    (LoggedStream.write
        { construct "logs" "t" "INFO" "" false "p.py" "20240101_000000"
            (StreamRef.base "out") (StreamRef.base "err") "" with
          log_file := some FileHandle.fhOpen }
        (StreamRef.base "out") "stdout" "T" "hi\n" =
      (write_log
          { construct "logs" "t" "INFO" "" false "p.py" "20240101_000000"
              (StreamRef.base "out") (StreamRef.base "err") "" with
            log_file := some FileHandle.fhOpen }
          "T" "INFO" "hi\n").map (fun s =>
        { s with events := s.events ++
            [IOEvent.writeS (StreamRef.base "out") "hi\n",
             IOEvent.flushS (StreamRef.base "out")] })) ∧
    LoggedStream.write
        { construct "logs" "t" "INFO" "" false "p.py" "20240101_000000"
            (StreamRef.base "out") (StreamRef.base "err") "" with
          log_file := some FileHandle.fhOpen }
        (StreamRef.base "out") "stdout" "T" "\n" =
      some { construct "logs" "t" "INFO" "" false "p.py" "20240101_000000"
              (StreamRef.base "out") (StreamRef.base "err") "" with
            log_file := some FileHandle.fhOpen
            events := ([] : List IOEvent) ++
              [IOEvent.writeS (StreamRef.base "out") "\n",
               IOEvent.flushS (StreamRef.base "out")] } :=
  ⟨((C6_wrapper_semantics _ (StreamRef.base "out") "T" "hi\n").1 (by decide)).1,
   ((C6_wrapper_semantics _ (StreamRef.base "out") "T" "\n").2.1 (by decide)).1⟩

/-- C1 counterexample: a complete construct-enter-exit run on a concrete
logger leaves `log_file` holding a (closed) handle — it is not cleared back
to `None` on session exit, contradicting the claimed if-and-only-if
invariant once the session has ended. -/
theorem C1_counterexample :
    (session
        (construct "logs" "test" "INFO" "" false "prog.py" "20240101_000000"
          (StreamRef.base "stdout") (StreamRef.base "stderr") "")
        "2024-01-01 00:00:00" [] none).map (fun p => p.1.log_file) =
      some (some FileHandle.fhClosed) ∧
    some FileHandle.fhClosed ≠ (none : Option FileHandle) :=
  ⟨by decide, by decide⟩

/-- C1 amended: `log_file` is `None` after construction and an open handle
while a session is active; on exit the handle is closed but the owned
reference is not cleared — it keeps holding the closed handle. -/
theorem C1_handle_lifecycle :
    (∀ (log_dir log_filename log_level log_format : String) (overwrite : Bool)
        (argv0 timestamp : String) (sysOut sysErr : StreamRef) (existing : String),
      (construct log_dir log_filename log_level log_format overwrite argv0
          timestamp sysOut sysErr existing).log_file = none) ∧
    (∀ (st st' : State) (a : String), enter st a = some st' →
      st'.log_file = some FileHandle.fhOpen) ∧
    (∀ (st st' : State) (a : String) (exc : Option (String × String)) (b : Bool)
        (fh : FileHandle),
      st.log_file = some fh → exitCtx st a exc = some (st', b) →
      st'.log_file = some FileHandle.fhClosed) := by
  refine ⟨fun _ _ _ _ _ _ _ _ _ _ => rfl, fun st st' a h => ?_, ?_⟩
  · obtain ⟨_, _, _, _, hopen⟩ := enter_spec h
    exact hopen
  · intro st st' a exc b fh hsf h
    obtain ⟨_, _, _, _, hcl⟩ := exitCtx_frame h
    exact hcl fh hsf

/-- State of a concrete default logger right after construction (C1). -/
def c1base : State :=
  construct "logs" "demo" "INFO" "" false "prog.py" "20240101_000000"
    (StreamRef.base "stdout") (StreamRef.base "stderr") ""

/-- The state after `__enter__` on `c1base` (C1). -/
def c1entered : State := (enter c1base "2024-01-01 00:00:00").getD c1base

/-- The state after `__exit__` on `c1entered` (C1). -/
def c1exited : State :=
  ((exitCtx c1entered "2024-01-01 00:00:01" none).getD (c1base, true)).1

/-- C1 witness: the amended lifecycle at a concrete run — `None` at
construction, open inside the session, closed-but-present after exit. -/
theorem C1_handle_lifecycle_witness :
    c1base.log_file = none ∧
      c1entered.log_file = some FileHandle.fhOpen ∧
      c1exited.log_file = some FileHandle.fhClosed :=
  ⟨C1_handle_lifecycle.1 "logs" "demo" "INFO" "" false "prog.py" "20240101_000000"
      (StreamRef.base "stdout") (StreamRef.base "stderr") "",
   C1_handle_lifecycle.2.1 c1base c1entered "2024-01-01 00:00:00" (by decide),
   C1_handle_lifecycle.2.2 c1entered c1exited "2024-01-01 00:00:01" none false
      FileHandle.fhOpen (by decide) (by decide)⟩

/-- C7 counterexample: after a session has exited, the `log_file` reference
still holds the closed handle (which is truthy), so an at-threshold log
call attempts to write to a closed file and raises instead of being
silently skipped — the claim that such a call "does not fail" is false. -/
theorem C7_counterexample :
    ((session
        (construct "logs" "test" "INFO" "" false "prog.py" "20240101_000000"
          (StreamRef.base "stdout") (StreamRef.base "stderr") "")
        "2024-01-01 00:00:00" [] none).bind
      (fun p => State.logInfo p.1 "2024-01-01 00:00:01" "after the session")) = none := by
  decide

/-- C7 amended: when the owned reference is `None` (e.g. before any session)
an at-or-above-threshold log call silently skips the file step — no error,
and the terminal write still happens; but when the reference holds a closed
handle (as it does after a session exits) the same call raises. -/
theorem C7_skip_only_when_reference_null (st : State)
    (asctime level message line : String)
    (hlev : ¬ levelValue level < st.logger.log_level)
    (hfmt : format_log st.logger.log_format asctime level message = some line) :
    (st.log_file = none →
      write_log st asctime level message =
        some { st with events := st.events ++
            [IOEvent.writeS st.logger.original_stdout (line ++ "
")] }) ∧
    (st.log_file = some FileHandle.fhClosed →
      write_log st asctime level message = none) := by
  constructor <;> intro hlf <;> unfold write_log <;> rw [if_neg hlev, hfmt] <;>
    simp only [hlf]

/-- C7 witness: concretely, an `INFO` call before any session succeeds with
only the terminal write, while the same call on the post-exit closed handle
raises. -/
theorem C7_skip_only_when_reference_null_witness :
    (write_log
        (construct "logs" "demo" "INFO" "" false "prog.py" "20240101_000000"
          (StreamRef.base "stdout") (StreamRef.base "stderr") "")
        "T" "INFO" "hello" =
      some { construct "logs" "demo" "INFO" "" false "prog.py" "20240101_000000"
              (StreamRef.base "stdout") (StreamRef.base "stderr") "" with
            events := ([] : List IOEvent) ++
              [IOEvent.writeS (StreamRef.base "stdout")
                (defaultLine "T" "INFO" "hello" ++ "
")] }) ∧
    write_log
        { construct "logs" "demo" "INFO" "" false "prog.py" "20240101_000000"
            (StreamRef.base "stdout") (StreamRef.base "stderr") "" with
          log_file := some FileHandle.fhClosed }
        "T" "INFO" "hello" = none :=
  ⟨(C7_skip_only_when_reference_null _ "T" "INFO" "hello"
      (defaultLine "T" "INFO" "hello") (by decide) (by decide)).1 rfl,
   (C7_skip_only_when_reference_null _ "T" "INFO" "hello"
      (defaultLine "T" "INFO" "hello") (by decide) (by decide)).2 rfl⟩

/-- C8: `__enter__` truncates the file exactly when `overwrite` is set
(append mode otherwise), and consequently two sequential sessions against
the same resolved path concatenate their output in order when
`overwrite = false`, while with `overwrite = true` the file afterwards
holds only the second session's output. -/
theorem C8_open_mode_and_sequential_sessions :
    (∀ (s s' : State) (a : String), enter s a = some s' →
      ∃ d, enterDelta s.logger a = some d ∧
        s'.fileContent = (if s.logger.overwrite then "" else s.fileContent) ++ d) ∧
    (∀ (st st1 st2 : State) (a1 a2 : String)
        (c1 c2 : List (String × String)) (e1 e2 : Option (String × String))
        (b1 b2 : Bool),
      session st a1 c1 e1 = some (st1, b1) →
      session st1 a2 c2 e2 = some (st2, b2) →
      ∃ out1 out2,
        sessionFileOutput st.logger a1 c1 e1 = some out1 ∧
        sessionFileOutput st.logger a2 c2 e2 = some out2 ∧
        (st.logger.overwrite = false →
          st2.fileContent = st.fileContent ++ (out1 ++ out2)) ∧
        (st.logger.overwrite = true → st2.fileContent = out2)) := by
  constructor
  · intro s s' a h
    obtain ⟨d, hd, hfc, _, _⟩ := enter_spec h
    exact ⟨d, hd, hfc⟩
  · intro st st1 st2 a1 a2 c1 c2 e1 e2 b1 b2 h1 h2
    obtain ⟨out1, ho1, hfc1, hlg1, _, _⟩ := session_spec h1
    obtain ⟨out2, ho2, hfc2, _, _, _⟩ := session_spec h2
    rw [hlg1] at ho2 hfc2
    refine ⟨out1, out2, ho1, ho2, fun hov => ?_, fun hov => ?_⟩
    · rw [hfc2, hfc1, hov]
      simp only [Bool.false_eq_true, if_false]
      exact string_append_assoc _ _ _
    · rw [hfc2, hov]
      simp only [if_true]
      exact string_empty_append _

/-- Concrete append-mode logger before any session (C8). -/
def c8base : State :=
  construct "logs" "shared" "INFO" "" false "prog.py" "20240101_000000"
    (StreamRef.base "stdout") (StreamRef.base "stderr") ""

/-- State after the first concrete session on `c8base` (C8). -/
def c8afterFirst : State :=
  ((session c8base "T1" [("WARNING", "first")] none).getD (c8base, true)).1

/-- State after the second concrete session on `c8afterFirst` (C8). -/
def c8afterSecond : State :=
  ((session c8afterFirst "T2" [("ERROR", "second")] none).getD (c8base, true)).1

/-- C8 witness: two concrete back-to-back append-mode sessions, with the
final file content equal to the concatenation of both sessions' output. -/
theorem C8_open_mode_and_sequential_sessions_witness :
    ∃ out1 out2,
      sessionFileOutput c8base.logger "T1" [("WARNING", "first")] none = some out1 ∧
      sessionFileOutput c8base.logger "T2" [("ERROR", "second")] none = some out2 ∧
      (c8base.logger.overwrite = false →
        c8afterSecond.fileContent = c8base.fileContent ++ (out1 ++ out2)) ∧
      (c8base.logger.overwrite = true → c8afterSecond.fileContent = out2) :=
  C8_open_mode_and_sequential_sessions.2 c8base c8afterFirst c8afterSecond
    "T1" "T2" [("WARNING", "first")] [("ERROR", "second")] none none false false
    (by decide) (by decide)

/-- C9: with no explicit filename the name is synthesized from the program
base name (with every `.py` removed, as the source's `replace` does) and the
timestamp; an explicit filename gets `.log` appended exactly when it is not
already the suffix; the resolved path is directory-slash-filename, computed
at construction; and no operation of the logger ever changes the stored
path. -/
theorem C9_resolved_path_fixed :
    (∀ (log_dir log_level log_format : String) (overwrite : Bool)
        (argv0 timestamp : String) (sysOut sysErr : StreamRef),
      (TerminalLogger.init log_dir "" log_level log_format overwrite argv0
          timestamp sysOut sysErr).log_filename =
        (if argv0 = "" then "task" else pyReplace (basename argv0) ".py" "") ++
          "_" ++ timestamp ++ ".log") ∧
    (∀ (log_dir log_filename log_level log_format : String) (overwrite : Bool)
        (argv0 timestamp : String) (sysOut sysErr : StreamRef),
      log_filename ≠ "" →
      (TerminalLogger.init log_dir log_filename log_level log_format overwrite argv0
          timestamp sysOut sysErr).log_filename =
        (if pyEndsWith log_filename ".log" then log_filename
         else log_filename ++ ".log")) ∧
    (∀ (log_dir log_filename log_level log_format : String) (overwrite : Bool)
        (argv0 timestamp : String) (sysOut sysErr : StreamRef),
      (TerminalLogger.init log_dir log_filename log_level log_format overwrite argv0
          timestamp sysOut sysErr).log_filepath =
        log_dir ++ "/" ++
          (TerminalLogger.init log_dir log_filename log_level log_format overwrite argv0
            timestamp sysOut sysErr).log_filename) ∧
    (∀ (st st' : State) (a l m : String), write_log st a l m = some st' →
      st'.logger.log_filepath = st.logger.log_filepath) ∧
    (∀ (st st' : State) (a : String), enter st a = some st' →
      st'.logger.log_filepath = st.logger.log_filepath) ∧
    (∀ (st st' : State) (a : String) (exc : Option (String × String)) (b : Bool),
      exitCtx st a exc = some (st', b) →
      st'.logger.log_filepath = st.logger.log_filepath) ∧
    (∀ st : State,
      (capture_terminal_output st).logger.log_filepath = st.logger.log_filepath ∧
        (restore_terminal st).logger.log_filepath = st.logger.log_filepath) := by
  refine ⟨fun _ _ _ _ _ _ _ _ => rfl, ?_, fun _ _ _ _ _ _ _ _ _ => rfl,
    ?_, ?_, ?_, fun _ => ⟨rfl, rfl⟩⟩
  · intro log_dir log_filename log_level log_format overwrite argv0 timestamp
      sysOut sysErr hne
    unfold TerminalLogger.init
    simp only [if_neg hne]
  · intro st st' a l m h
    rw [(write_log_logger h).1]
  · intro st st' a h
    rw [(enter_spec h).choose_spec.2.2.1]
  · intro st st' a exc b h
    rw [(exitCtx_frame h).1]

/-- Concrete default logger before any session (C9). -/
def c9base : State :=
  construct "logs" "run" "INFO" "" false "dir/prog.py" "20240101_000000"
    (StreamRef.base "stdout") (StreamRef.base "stderr") ""

/-- State after `__enter__` on `c9base` (C9). -/
def c9entered : State := (enter c9base "2024-01-01 00:00:00").getD c9base

/-- State after `__exit__` on `c9entered` (C9). -/
def c9exited : State :=
  ((exitCtx c9entered "2024-01-01 00:00:01" none).getD (c9base, true)).1

/-- C9 witness: the name synthesis rules and path immutability at concrete
inputs — `.log` appended to `"run"`, not duplicated on `"run.log"`, the
synthesized name for `dir/prog.py`, and a concrete enter/log/exit chain that
leaves the stored path untouched. -/
theorem C9_resolved_path_fixed_witness :
    (TerminalLogger.init "logs" "" "INFO" "" false "dir/prog.py" "20240101_000000"
        (StreamRef.base "stdout") (StreamRef.base "stderr")).log_filename =
      (if ("dir/prog.py" : String) = "" then "task"
       else pyReplace (basename "dir/prog.py") ".py" "") ++ "_" ++ "20240101_000000" ++ ".log" ∧
    (TerminalLogger.init "logs" "run" "INFO" "" false "dir/prog.py" "20240101_000000"
        (StreamRef.base "stdout") (StreamRef.base "stderr")).log_filename =
      (if pyEndsWith "run" ".log" then "run" else "run" ++ ".log") ∧
    (TerminalLogger.init "logs" "run.log" "INFO" "" false "dir/prog.py" "20240101_000000"
        (StreamRef.base "stdout") (StreamRef.base "stderr")).log_filename =
      (if pyEndsWith "run.log" ".log" then "run.log" else "run.log" ++ ".log") ∧
    c9entered.logger.log_filepath = c9base.logger.log_filepath ∧
    c9exited.logger.log_filepath = c9entered.logger.log_filepath :=
  ⟨C9_resolved_path_fixed.1 "logs" "INFO" "" false "dir/prog.py" "20240101_000000"
      (StreamRef.base "stdout") (StreamRef.base "stderr"),
   C9_resolved_path_fixed.2.1 "logs" "run" "INFO" "" false "dir/prog.py"
      "20240101_000000" (StreamRef.base "stdout") (StreamRef.base "stderr") (by decide),
   C9_resolved_path_fixed.2.1 "logs" "run.log" "INFO" "" false "dir/prog.py"
      "20240101_000000" (StreamRef.base "stdout") (StreamRef.base "stderr") (by decide),
   C9_resolved_path_fixed.2.2.2.2.1 c9base c9entered "2024-01-01 00:00:00" (by decide),
   C9_resolved_path_fixed.2.2.2.2.2.1 c9entered c9exited "2024-01-01 00:00:01" none
      false (by decide)⟩

/-- C10: a level name outside the recognized table (after upper-casing) gets
internal value 0 in the emission path, which is strictly below every
threshold a constructor can produce, so the call is dropped with no effect
and no error; at construction, by contrast, an unrecognized level name falls
back to INFO = 20. -/
theorem C10_unrecognized_level_dropped (level name : String)
    (h : LOG_LEVELS.lookup (pyUpper level) = none) :
    levelValue level = 0 ∧
    0 < levelFromName name ∧
    (∀ (st : State) (asctime message : String),
      st.logger.log_level = levelFromName name →
      write_log st asctime level message = some st) ∧
    (LOG_LEVELS.lookup (pyUpper name) = none → levelFromName name = 20) := by
  have h0 : levelValue level = 0 := by
    unfold levelValue
    rw [h]
    rfl
  refine ⟨h0, levelFromName_pos name, ?_, ?_⟩
  · intro st a m hl
    unfold write_log
    rw [if_pos (by rw [h0, hl]; exact levelFromName_pos name)]
  · intro hn
    unfold levelFromName
    rw [hn]
    rfl

/-- C10 witness: `"TRACE"` is unrecognized — its emission value is 0, a
`TRACE` call on a logger constructed at (unrecognized, hence INFO) level
`"VERBOSE"` is a no-op, and construction at `"VERBOSE"` fell back to 20. -/
theorem C10_unrecognized_level_dropped_witness :
    levelValue "TRACE" = 0 ∧
    0 < levelFromName "VERBOSE" ∧
    write_log
        (construct "logs" "t" "VERBOSE" "" false "p.py" "20240101_000000"
          (StreamRef.base "out") (StreamRef.base "err") "")
        "T" "TRACE" "m" =
      some (construct "logs" "t" "VERBOSE" "" false "p.py" "20240101_000000"
        (StreamRef.base "out") (StreamRef.base "err") "") ∧
    levelFromName "VERBOSE" = 20 := by
  obtain ⟨h0, hpos, hdrop, hfb⟩ := C10_unrecognized_level_dropped "TRACE" "VERBOSE"
    (by decide)
  exact ⟨h0, hpos, hdrop _ "T" "m" rfl, hfb (by decide)⟩

end LoggerUtils
